import Mathlib

/-!
Verification of the kbe-proto-demo action-validation core.

This file gives a shallow embedding, in Lean 4, of the parts of the
repository that the specification makes claims about:

* the per-action pydantic input models and their validators
  (src/models/actions/adjust_setpoint.py, load_shed.py, pre_cooling.py),
* the action-descriptor model and registry
  (src/models/action_descriptor.py) together with the three shipped
  descriptor instances (src/models/descriptors/),
* the generic runtime parameter validator (src/services/validator.py).

Modelling conventions:

* Python floats are modelled as rationals; every constant that appears in
  the source has an exact decimal value, and no claim depends on binary
  rounding.
* Pydantic construction is modelled in two phases, matching pydantic v2
  semantics for these models: field validation runs over the fields in
  declaration order and collects one error list (a Field constraint that
  fails suppresses the after-field-validator of that same field; a field
  that failed validation is absent from the info.data seen by later field
  validators); the model validators (mode after) run only when the field
  phase produced no errors, in definition order, stopping at the first
  ValueError.
* Validation errors carry their parameters as structured constructors
  mirroring the ValueError messages raised by the source.
-/

namespace KBE

/-- Priority literal of AdjustSetpointInput (adjust_setpoint.py line 41):
low, medium, high or emergency.  The Literal type check of pydantic is
modelled by this inductive type. -/
inductive APriority
  | low
  | medium
  | high
  | emergency
deriving DecidableEq

/-- Structured form of the validation errors that AdjustSetpointInput
construction can raise (Field constraints and ValueError messages of
adjust_setpoint.py lines 25 to 97). -/
inductive AdjustError
  | zoneIdTooShort
  | setpointTooSmall (v : ℚ)
  | setpointTooLarge (v : ℚ)
  | setpointOutsideComfort (v : ℚ)
  | reasonTooShort
  | maxChangeNotPositive (v : ℚ)
  | maxChangeTooLarge (v : ℚ)
  | currentTooSmall (v : ℚ)
  | currentTooLarge (v : ℚ)
  | changeExceedsMax (change maxChange : ℚ)
deriving DecidableEq

/-- Field set of AdjustSetpointInput (adjust_setpoint.py lines 25 to 56),
in declaration order. -/
structure AdjustSetpointInput where
  zone_id : String
  new_setpoint : ℚ
  reason : String
  priority : APriority
  max_change : ℚ
  current_setpoint : Option ℚ
deriving DecidableEq

namespace AdjustSetpoint

/-- Field check for zone_id: Field(min_length=1). -/
def validate_zone_id (s : String) : List AdjustError :=
  if s.length < 1 then [.zoneIdTooShort] else []

/-- Field checks for new_setpoint: Field(ge=50.0, le=90.0), then the
after-field-validator validate_comfort_range (lines 58 to 78), which
rejects values below 60.0 or above 80.0 and runs only when the ge/le
constraints passed. -/
def validate_new_setpoint (v : ℚ) : List AdjustError :=
  if v < 50 then [.setpointTooSmall v]
  else if 90 < v then [.setpointTooLarge v]
  else if v < 60 ∨ 80 < v then [.setpointOutsideComfort v]
  else []

/-- Field check for reason: Field(min_length=1). -/
def validate_reason (s : String) : List AdjustError :=
  if s.length < 1 then [.reasonTooShort] else []

/-- Field checks for max_change: Field(gt=0.0, le=15.0). -/
def validate_max_change (v : ℚ) : List AdjustError :=
  if v ≤ 0 then [.maxChangeNotPositive v]
  else if 15 < v then [.maxChangeTooLarge v]
  else []

/-- Field checks for current_setpoint: optional, Field(ge=50.0, le=90.0)
applied when a value is present. -/
def validate_current_setpoint : Option ℚ → List AdjustError
  | none => []
  | some v =>
    if v < 50 then [.currentTooSmall v]
    else if 90 < v then [.currentTooLarge v]
    else []

/-- Phase 1: all single-field errors, fields in declaration order.  The
priority field is a Literal and is enforced by the APriority type. -/
def fieldErrors (p : AdjustSetpointInput) : List AdjustError :=
  validate_zone_id p.zone_id ++
  validate_new_setpoint p.new_setpoint ++
  validate_reason p.reason ++
  validate_max_change p.max_change ++
  validate_current_setpoint p.current_setpoint

/-- Phase 2: model validator validate_setpoint_change (lines 80 to 97):
when current_setpoint is present, the absolute change must not exceed
max_change. -/
def validate_setpoint_change (p : AdjustSetpointInput) : Option AdjustError :=
  match p.current_setpoint with
  | some c =>
    if p.max_change < |p.new_setpoint - c| then
      some (.changeExceedsMax |p.new_setpoint - c| p.max_change)
    else none
  | none => none

/-- Pydantic construction of AdjustSetpointInput: field phase first; the
model validator runs only when the field phase reported nothing. -/
def construct (p : AdjustSetpointInput) : Except (List AdjustError) AdjustSetpointInput :=
  match fieldErrors p with
  | [] =>
    match validate_setpoint_change p with
    | some e => .error [e]
    | none => .ok p
  | es => .error es

end AdjustSetpoint

/-- Concrete valid payload used as the C1 witness input. -/
def c1payload : AdjustSetpointInput :=
  { zone_id := "Z1", new_setpoint := 72, reason := "occupant request",
    priority := .medium, max_change := 5, current_setpoint := some 70 }

/-- Concrete payload with new_setpoint 59 used as the C5 witness input. -/
def c5payload : AdjustSetpointInput :=
  { zone_id := "Z1", new_setpoint := 59, reason := "test",
    priority := .medium, max_change := 5, current_setpoint := none }

/-- Errors of the shared zone_ids field validator (validate_zone_ids in
load_shed.py lines 74 to 96 and pre_cooling.py lines 88 to 110): the
Field(min_length=1) constraint, then duplicate detection, then the
blank/whitespace check; the validator raises on the first violation. -/
inductive ZoneIdsError
  | listTooShort
  | duplicates
  | blank
deriving DecidableEq

/-- Python not zone_id.strip(): true exactly when the string consists of
whitespace only (in particular when it is empty). -/
def stripEmpty (s : String) : Bool :=
  s.data.all fun c => c.isWhitespace

/-- Zone-id list checks: Field(min_length=1), then len(v) = len(set(v)),
then no entry whose strip() is empty. -/
def checkZoneIds (v : List String) : List ZoneIdsError :=
  if v.length < 1 then [.listTooShort]
  else if v.dedup.length ≠ v.length then [.duplicates]
  else if v.any stripEmpty then [.blank]
  else []

/-- The shed_level Literal values (load_shed.py line 33). -/
def shedLevelChoices : List ℤ := [1, 2, 3, 4, 5]

/-- The equipment_types element Literal values (load_shed.py line 43). -/
def equipmentChoices : List String :=
  ["hvac", "lighting", "fan", "pump", "chiller", "boiler"]

/-- Structured form of the validation errors that LoadShedInput
construction can raise (load_shed.py lines 28 to 169). -/
inductive LoadShedError
  | zoneIds (e : ZoneIdsError)
  | shedLevelNotInEnum (v : ℤ)
  | durationNotPositive (v : ℤ)
  | durationTooLarge (v : ℤ)
  | shedDurationTooLong (level v : ℤ)
  | equipmentTypeInvalid (s : String)
  | reasonTooShort
  | minComfortTooSmall (v : ℚ)
  | minComfortTooLarge (v : ℚ)
  | maxComfortTooSmall (v : ℚ)
  | maxComfortTooLarge (v : ℚ)
  | savingsNegative (v : ℚ)
  | minNotLessThanMax (minT maxT : ℚ)
  | comfortRangeTooNarrow (range : ℚ)
  | priorityZoneOverlap (zones : List String)
deriving DecidableEq

/-- Field set of LoadShedInput (load_shed.py lines 28 to 72), in
declaration order. -/
structure LoadShedInput where
  zone_ids : List String
  shed_level : ℤ
  duration_minutes : ℤ
  equipment_types : List String
  reason : String
  min_comfort_temp : ℚ
  max_comfort_temp : ℚ
  priority_zones : List String
  expected_savings_kw : Option ℚ
deriving DecidableEq

namespace LoadShed

/-- Field checks for duration_minutes: Field(gt=0, le=240), then the
after-field-validator validate_duration (load_shed.py lines 144 to 169).
The validator reads shed_level from info.data, which holds the field only
when shed_level itself validated; the source guard
(shed_level and shed_level >= 4 and v > 120) is modelled with getD 0,
which agrees with Python truthiness on every integer. -/
def validate_duration (shed_level_data : Option ℤ) (v : ℤ) : List LoadShedError :=
  if v ≤ 0 then [.durationNotPositive v]
  else if 240 < v then [.durationTooLarge v]
  else if 4 ≤ shed_level_data.getD 0 ∧ 120 < v then
    [.shedDurationTooLong (shed_level_data.getD 0) v]
  else []

/-- Per-element Literal check on equipment_types (load_shed.py line 43). -/
def validate_equipment_types (v : List String) : List LoadShedError :=
  v.filterMap fun s =>
    if s ∈ equipmentChoices then none else some (.equipmentTypeInvalid s)

/-- Field check for reason: Field(min_length=1). -/
def validate_ls_reason (s : String) : List LoadShedError :=
  if s.length < 1 then [.reasonTooShort] else []

/-- Field checks for min_comfort_temp: Field(ge=60.0, le=75.0). -/
def validate_min_comfort (v : ℚ) : List LoadShedError :=
  if v < 60 then [.minComfortTooSmall v]
  else if 75 < v then [.minComfortTooLarge v]
  else []

/-- Field checks for max_comfort_temp: Field(ge=70.0, le=85.0). -/
def validate_max_comfort (v : ℚ) : List LoadShedError :=
  if v < 70 then [.maxComfortTooSmall v]
  else if 85 < v then [.maxComfortTooLarge v]
  else []

/-- Field check for expected_savings_kw: optional, Field(ge=0.0). -/
def validate_expected_savings : Option ℚ → List LoadShedError
  | none => []
  | some v => if v < 0 then [.savingsNegative v] else []

/-- Phase 1: all single-field errors, fields in declaration order.  The
shed_level Literal check precedes duration validation, and the duration
validator sees shed_level through info.data only when it validated. -/
def fieldErrors (p : LoadShedInput) : List LoadShedError :=
  (checkZoneIds p.zone_ids).map .zoneIds ++
  (if p.shed_level ∈ shedLevelChoices then [] else [.shedLevelNotInEnum p.shed_level]) ++
  validate_duration
    (if p.shed_level ∈ shedLevelChoices then some p.shed_level else none)
    p.duration_minutes ++
  validate_equipment_types p.equipment_types ++
  validate_ls_reason p.reason ++
  validate_min_comfort p.min_comfort_temp ++
  validate_max_comfort p.max_comfort_temp ++
  validate_expected_savings p.expected_savings_kw

/-- Model validator validate_comfort_range (load_shed.py lines 98 to 122):
min_comfort_temp must be strictly below max_comfort_temp and the range at
least 5 degrees. -/
def validate_comfort_range (p : LoadShedInput) : Option LoadShedError :=
  if p.max_comfort_temp ≤ p.min_comfort_temp then
    some (.minNotLessThanMax p.min_comfort_temp p.max_comfort_temp)
  else if p.max_comfort_temp - p.min_comfort_temp < 5 then
    some (.comfortRangeTooNarrow (p.max_comfort_temp - p.min_comfort_temp))
  else none

/-- Model validator validate_priority_zones (load_shed.py lines 124 to
142): when priority_zones is non-empty its set intersection with zone_ids
must be empty. -/
def validate_priority_zones (p : LoadShedInput) : Option LoadShedError :=
  if p.priority_zones.isEmpty then none
  else
    let overlap := (p.zone_ids.filter fun z => z ∈ p.priority_zones).dedup
    if overlap.isEmpty then none else some (.priorityZoneOverlap overlap)

/-- Pydantic construction of LoadShedInput: field phase (which includes
the duration/shed_level field validator), then the two model validators in
definition order. -/
def construct (p : LoadShedInput) : Except (List LoadShedError) LoadShedInput :=
  match fieldErrors p with
  | [] =>
    match validate_comfort_range p with
    | some e => .error [e]
    | none =>
      match validate_priority_zones p with
      | some e => .error [e]
      | none => .ok p
  | es => .error es

end LoadShed

/-- Concrete payload of the C4 testable property: zone Z1, shed_level 5,
duration 150 minutes, default comfort temperatures. -/
def c4rejected : LoadShedInput :=
  { zone_ids := ["Z1"], shed_level := 5, duration_minutes := 150,
    equipment_types := [], reason := "x", min_comfort_temp := 68,
    max_comfort_temp := 78, priority_zones := [], expected_savings_kw := none }

/-- The same payload with shed_level 3, which the cap does not apply to. -/
def c4accepted : LoadShedInput :=
  { zone_ids := ["Z1"], shed_level := 3, duration_minutes := 150,
    equipment_types := [], reason := "x", min_comfort_temp := 68,
    max_comfort_temp := 78, priority_zones := [], expected_savings_kw := none }

/-- Concrete payload violating both the comfort-range rule and the
duration cap: comfort range of 2 degrees (70 to 72) and duration 150 at
shed_level 5. -/
def c3payload : LoadShedInput :=
  { zone_ids := ["Z1"], shed_level := 5, duration_minutes := 150,
    equipment_types := [], reason := "x", min_comfort_temp := 70,
    max_comfort_temp := 72, priority_zones := [], expected_savings_kw := none }

/-- Priority literal of PreCoolingInput (pre_cooling.py line 57): low,
medium or high; emergency is not a member, so the exclusion is enforced by
the type itself. -/
inductive PCPriority
  | low
  | medium
  | high
deriving DecidableEq

/-- Structured form of the validation errors that PreCoolingInput
construction can raise (pre_cooling.py lines 30 to 196). -/
inductive PreCoolingError
  | zoneIds (e : ZoneIdsError)
  | targetTempTooSmall (v : ℚ)
  | targetTempTooLarge (v : ℚ)
  | targetTempTooAggressive (v : ℚ)
  | startTimeBadFormat (s : String)
  | occupancyStartBadFormat (s : String)
  | rateTooSmall (v : ℚ)
  | rateTooLarge (v : ℚ)
  | costNegative (v : ℚ)
  | reasonTooShort
  | minOutdoorTooSmall (v : ℚ)
  | minOutdoorTooLarge (v : ℚ)
  | maxOutdoorTooSmall (v : ℚ)
  | maxOutdoorTooLarge (v : ℚ)
  | windowTooShort (w : ℤ)
  | windowTooLong (w : ℤ)
  | outdoorMinNotLessThanMax (mn mx : ℚ)
deriving DecidableEq

/-- Field set of PreCoolingInput (pre_cooling.py lines 30 to 86), in
declaration order. -/
structure PreCoolingInput where
  zone_ids : List String
  target_temp : ℚ
  start_time : String
  occupancy_start : String
  max_rate_delta : ℚ
  priority : PCPriority
  enable_adaptive : Bool
  cost_limit_usd : Option ℚ
  reason : String
  min_outdoor_temp : Option ℚ
  max_outdoor_temp : Option ℚ
deriving DecidableEq

namespace PreCooling

/-- The HH:MM 24-hour pattern of the start_time and occupancy_start
Fields (pre_cooling.py lines 43 and 48): hour 00 to 23, minute 00 to
59. -/
def isHHMM (s : String) : Bool :=
  match s.data with
  | [h1, h2, c, m1, m2] =>
    (((h1 == '0' || h1 == '1') && h2.isDigit) ||
      (h1 == '2' && (h2 == '0' || h2 == '1' || h2 == '2' || h2 == '3'))) &&
    c == ':' &&
    (m1 == '0' || m1 == '1' || m1 == '2' || m1 == '3' || m1 == '4' || m1 == '5') &&
    m2.isDigit
  | _ => false

/-- Minute-of-day of an HH:MM string, the hour times 60 plus the minute
(pre_cooling.py lines 124 to 131).  The fallback 0 is unreachable for
strings that passed the pattern Field constraint, which is the only case
in which the model validator runs. -/
def hhmmMinutes (s : String) : ℤ :=
  match s.data with
  | [h1, h2, _, m1, m2] =>
    (((h1.toNat - 48) * 10 + (h2.toNat - 48)) * 60 +
      ((m1.toNat - 48) * 10 + (m2.toNat - 48)) : ℕ)
  | _ => 0

/-- Effective pre-cooling window in minutes (pre_cooling.py lines 129 to
137): occupancy minute minus start minute, with 24 * 60 added to the
occupancy minute first when it is strictly earlier in the day than the
start minute (overnight wrap). -/
def timeWindow (start occupancy : String) : ℤ :=
  (if hhmmMinutes occupancy < hhmmMinutes start then
    hhmmMinutes occupancy + 24 * 60
  else hhmmMinutes occupancy) - hhmmMinutes start

/-- Field checks for target_temp: Field(ge=60.0, le=75.0), then the
after-field-validator validate_target_temp_economics (lines 175 to 196)
with the stricter 62.0 floor. -/
def validate_target_temp (v : ℚ) : List PreCoolingError :=
  if v < 60 then [.targetTempTooSmall v]
  else if 75 < v then [.targetTempTooLarge v]
  else if v < 62 then [.targetTempTooAggressive v]
  else []

/-- Field checks for max_rate_delta: Field(ge=1.0, le=10.0). -/
def validate_max_rate (v : ℚ) : List PreCoolingError :=
  if v < 1 then [.rateTooSmall v]
  else if 10 < v then [.rateTooLarge v]
  else []

/-- Field check for cost_limit_usd: optional, Field(ge=0.0). -/
def validate_cost_limit : Option ℚ → List PreCoolingError
  | none => []
  | some v => if v < 0 then [.costNegative v] else []

/-- Field check for reason: Field(min_length=1). -/
def validate_pc_reason (s : String) : List PreCoolingError :=
  if s.length < 1 then [.reasonTooShort] else []

/-- Field checks for min_outdoor_temp: optional, Field(ge=-20.0,
le=100.0). -/
def validate_min_outdoor : Option ℚ → List PreCoolingError
  | none => []
  | some v =>
    if v < -20 then [.minOutdoorTooSmall v]
    else if 100 < v then [.minOutdoorTooLarge v]
    else []

/-- Field checks for max_outdoor_temp: optional, Field(ge=-20.0,
le=120.0). -/
def validate_max_outdoor : Option ℚ → List PreCoolingError
  | none => []
  | some v =>
    if v < -20 then [.maxOutdoorTooSmall v]
    else if 120 < v then [.maxOutdoorTooLarge v]
    else []

/-- Phase 1: all single-field errors, fields in declaration order.  The
priority Literal (which excludes emergency) and the enable_adaptive bool
are enforced by their types. -/
def fieldErrors (p : PreCoolingInput) : List PreCoolingError :=
  (checkZoneIds p.zone_ids).map .zoneIds ++
  validate_target_temp p.target_temp ++
  (if isHHMM p.start_time then [] else [.startTimeBadFormat p.start_time]) ++
  (if isHHMM p.occupancy_start then [] else [.occupancyStartBadFormat p.occupancy_start]) ++
  validate_max_rate p.max_rate_delta ++
  validate_cost_limit p.cost_limit_usd ++
  validate_pc_reason p.reason ++
  validate_min_outdoor p.min_outdoor_temp ++
  validate_max_outdoor p.max_outdoor_temp

/-- Model validator validate_time_window (pre_cooling.py lines 112 to
153): windows strictly below 30 minutes or strictly above 480 minutes are
rejected. -/
def validate_time_window (p : PreCoolingInput) : Option PreCoolingError :=
  if timeWindow p.start_time p.occupancy_start < 30 then
    some (.windowTooShort (timeWindow p.start_time p.occupancy_start))
  else if 480 < timeWindow p.start_time p.occupancy_start then
    some (.windowTooLong (timeWindow p.start_time p.occupancy_start))
  else none

/-- Model validator validate_outdoor_temps (pre_cooling.py lines 155 to
173): when both outdoor bounds are present, min must be strictly below
max. -/
def validate_outdoor_temps (p : PreCoolingInput) : Option PreCoolingError :=
  match p.min_outdoor_temp, p.max_outdoor_temp with
  | some mn, some mx =>
    if mx ≤ mn then some (.outdoorMinNotLessThanMax mn mx) else none
  | _, _ => none

/-- Pydantic construction of PreCoolingInput: field phase, then the two
model validators in definition order. -/
def construct (p : PreCoolingInput) : Except (List PreCoolingError) PreCoolingInput :=
  match fieldErrors p with
  | [] =>
    match validate_time_window p with
    | some e => .error [e]
    | none =>
      match validate_outdoor_temps p with
      | some e => .error [e]
      | none => .ok p
  | es => .error es

end PreCooling

/-- Concrete overnight payload of the C2 testable property: pre-cooling
from 23:00 for an occupancy start of 07:00 the next day. -/
def pc23payload : PreCoolingInput :=
  { zone_ids := ["Z1"], target_temp := 65, start_time := "23:00",
    occupancy_start := "07:00", max_rate_delta := 5, priority := .medium,
    enable_adaptive := true, cost_limit_usd := none, reason := "x",
    min_outdoor_temp := none, max_outdoor_temp := none }

/-- Scalar Python values as they occur in this API: parameter bundles,
default values and rule constants are strings, ints, floats, booleans or
None throughout the source (no dict- or list-valued parameters reach the
code under verification). -/
inductive PyValue
  | str (s : String)
  | intv (n : ℤ)
  | floatv (q : ℚ)
  | boolv (b : Bool)
  | pynone
deriving DecidableEq

/-- One select option of a UI field, the dict with keys value and label
(action_descriptor.py line 35). -/
structure SelectOption where
  value : String
  label : String
deriving DecidableEq

/-- UIFieldDescriptor (action_descriptor.py lines 12 to 46). -/
structure UIFieldDescriptor where
  field_name : String
  field_type : String
  label : String
  required : Bool := true
  default_value : Option PyValue := none
  placeholder : Option String := none
  help_text : Option String := none
  min_value : Option ℚ := none
  max_value : Option ℚ := none
  step : Option ℚ := none
  pattern : Option String := none
  min_length : Option ℤ := none
  max_length : Option ℤ := none
  options : Option (List SelectOption) := none
  depends_on : Option String := none
  depends_value : Option PyValue := none
  grid_column : Option String := none
  css_class : Option String := none
deriving DecidableEq

/-- One relationship edge of a graph node, the dict with keys target and
type (action_descriptor.py line 62). -/
structure GraphRelationship where
  target : String
  rel_type : String
deriving DecidableEq

/-- GraphNodeDescriptor (action_descriptor.py lines 49 to 65). -/
structure GraphNodeDescriptor where
  node_id : String
  node_type : String
  label : String
  description : Option String := none
  color : Option String := none
  relationships : List GraphRelationship := []
deriving DecidableEq

/-- One audit detail field, the dict with keys param, label and format
(action_descriptor.py line 76). -/
structure AuditDetailField where
  param : String
  label : String
  format : String
deriving DecidableEq

/-- AuditLogDescriptor (action_descriptor.py lines 68 to 86). -/
structure AuditLogDescriptor where
  summary_template : String
  detail_fields : List AuditDetailField := []
  icon : Option String := none
  formatters : List (String × String) := []
deriving DecidableEq

/-- One ODRL role policy record: the permitted flag with either a reason
(expected when not permitted) or a constraints list. -/
structure ODRLPolicy where
  permitted : Bool
  reason : Option String := none
  constraints : List String := []
deriving DecidableEq

/-- ActionDescriptor (action_descriptor.py lines 89 to 161).  The
odrl_policies dict is modelled as an association list from role name to
policy record. -/
structure ActionDescriptor where
  action_id : String
  action_name : String
  action_type : String
  description : String
  version : String := "1.0.0"
  ui_fields : List UIFieldDescriptor
  ui_layout : String := "single-column"
  graph_nodes : List GraphNodeDescriptor
  audit_descriptor : AuditLogDescriptor
  shacl_constraints : List String := []
  odrl_policies : List (String × ODRLPolicy) := []
  target_type : String
  required_permissions : List String := []
  side_effects : List String := []
  handler_function : String
  validation_class : String
  cost_calculator : Option String := none
deriving DecidableEq

/-- The field_type Literal values of UIFieldDescriptor
(action_descriptor.py line 17). -/
def uiFieldTypeChoices : List String :=
  ["text", "number", "select", "checkbox", "time", "multi-select", "zone-selector"]

/-- The node_type Literal values of GraphNodeDescriptor
(action_descriptor.py line 54). -/
def graphNodeTypeChoices : List String :=
  ["action", "constraint", "policy", "property", "effect"]

/-- The ui_layout Literal values of ActionDescriptor
(action_descriptor.py line 113). -/
def uiLayoutChoices : List String :=
  ["single-column", "two-column", "grid"]

/-- Literal-membership errors that pydantic can raise while constructing
an ActionDescriptor.  No Field of ActionDescriptor carries a length or
numeric constraint, so these enum checks are the only value checks that
construction performs. -/
inductive DescriptorFieldError
  | badFieldType (s : String)
  | badNodeType (s : String)
  | badLayout (s : String)
deriving DecidableEq

/-- The value checks performed when pydantic constructs a well-typed
ActionDescriptor: the field_type, node_type and ui_layout Literal
memberships.  There is no constraint on the length of ui_fields,
graph_nodes or any other list (action_descriptor.py lines 109 to 122
declare them with plain Field(...) markers). -/
def actionDescriptorFieldErrors (d : ActionDescriptor) : List DescriptorFieldError :=
  (d.ui_fields.filterMap fun f =>
    if f.field_type ∈ uiFieldTypeChoices then none
    else some (.badFieldType f.field_type)) ++
  (if d.ui_layout ∈ uiLayoutChoices then [] else [.badLayout d.ui_layout]) ++
  (d.graph_nodes.filterMap fun n =>
    if n.node_type ∈ graphNodeTypeChoices then none
    else some (.badNodeType n.node_type))

/-- Pydantic aggregate construction of ActionDescriptor. -/
def constructActionDescriptor (d : ActionDescriptor) :
    Except (List DescriptorFieldError) ActionDescriptor :=
  match actionDescriptorFieldErrors d with
  | [] => .ok d
  | es => .error es

/-- ActionRegistry (action_descriptor.py lines 191 to 260): a dict from
action_id to descriptor, modelled as an association list with dict
overwrite semantics (an overwritten key keeps its position). -/
structure ActionRegistry where
  actions : List (String × ActionDescriptor)
deriving DecidableEq

/-- Dict insertion: overwrite in place when the key exists, append
otherwise. -/
def dictInsert : List (String × ActionDescriptor) → String → ActionDescriptor →
    List (String × ActionDescriptor)
  | [], k, d => [(k, d)]
  | (k2, d2) :: rest, k, d =>
    if k2 = k then (k, d) :: rest else (k2, d2) :: dictInsert rest k d

/-- register (line 200): insert or overwrite by action_id. -/
def ActionRegistry.register (r : ActionRegistry) (d : ActionDescriptor) : ActionRegistry :=
  ⟨dictInsert r.actions d.action_id d⟩

/-- get (line 204): lookup by action_id, absent when unregistered. -/
def ActionRegistry.get (r : ActionRegistry) (action_id : String) : Option ActionDescriptor :=
  r.actions.lookup action_id

/-- list_all (line 208): all registered descriptors in dict order. -/
def ActionRegistry.list_all (r : ActionRegistry) : List ActionDescriptor :=
  r.actions.map Prod.snd

/-- The singleton error list that a check of validate_completeness
contributes when its condition holds. -/
def errIf (c : Prop) [Decidable c] (msg : String) : List String :=
  if c then [msg] else []

/-- validate_completeness (action_descriptor.py lines 219 to 260): a
single not-found error for an unregistered id; otherwise one error
accumulated for each empty or missing required element, with the boolean
true exactly when no error accumulated. -/
def ActionRegistry.validate_completeness (r : ActionRegistry) (action_id : String) :
    Bool × List String :=
  match r.get action_id with
  | none => (false, ["Action \x27" ++ action_id ++ "\x27 not found in registry"])
  | some d =>
    let errors :=
      errIf (d.ui_fields = []) "No UI fields defined" ++
      errIf (d.graph_nodes = []) "No graph nodes defined" ++
      errIf (d.audit_descriptor.summary_template = "") "No audit summary template defined" ++
      errIf (d.shacl_constraints = []) "No SHACL constraints defined" ++
      errIf (d.odrl_policies = []) "No ODRL policies defined" ++
      errIf (d.handler_function = "") "No handler function specified" ++
      errIf (d.validation_class = "") "No validation class specified"
    (errors.isEmpty, errors)

/-- The adjust-setpoint descriptor instance
(descriptors/adjust_setpoint_descriptor.py lines 16 to 198). -/
def adjust_setpoint_descriptor : ActionDescriptor :=
  { action_id := "adjust-setpoint",
    action_name := "Adjust Temperature Setpoint",
    action_type := "control",
    description := "Modify zone temperature setpoint with SHACL validation and ODRL governance",
    version := "1.0.0",
    ui_fields := [
      { field_name := "user_role", field_type := "select", label := "User / Role",
        required := true,
        default_value := some (.str "facility_manager:Facility Manager"),
        options := some [
          ⟨"operator:Operator", "Operator (Basic Controls)"⟩,
          ⟨"facility_manager:Facility Manager", "Facility Manager (All Controls)"⟩,
          ⟨"energy_manager:Energy Manager", "Energy Manager (Optimization)"⟩,
          ⟨"contractor:Contractor", "Contractor (Limited Access)"⟩],
        help_text := some "Select your role for proper governance enforcement" },
      { field_name := "zone_id", field_type := "zone-selector",
        label := "Zone Selection (Click tile or select)", required := true,
        help_text := some "Select target zone for setpoint adjustment" },
      { field_name := "new_setpoint", field_type := "number",
        label := "New Setpoint (°F)", required := true,
        min_value := some 60, max_value := some 80, step := some 0.5,
        help_text := some "Range: 60-80°F for comfort and safety" },
      { field_name := "priority", field_type := "select", label := "Priority Level",
        required := true, default_value := some (.str "medium"),
        options := some [
          ⟨"low", "Low - Scheduled adjustment"⟩,
          ⟨"medium", "Medium - Normal operation"⟩,
          ⟨"high", "High - Comfort issue"⟩,
          ⟨"emergency", "Emergency - Critical response"⟩],
        help_text := some "Emergency priority requires manager authorization" },
      { field_name := "reason", field_type := "text", label := "Reason",
        required := false,
        placeholder := some "e.g., Occupant complaint",
        help_text := some "Optional explanation for audit trail" }],
    ui_layout := "single-column",
    graph_nodes := [
      { node_id := "action:adjust-setpoint", node_type := "action",
        label := "Adjust Temperature Setpoint",
        description := some "Modify zone temperature setpoint",
        relationships := [
          ⟨"constraint:setpoint-range", "has_constraint"⟩,
          ⟨"constraint:max-delta", "has_constraint"⟩,
          ⟨"constraint:operator-limit", "has_constraint"⟩,
          ⟨"policy:operator-restrictions", "governed_by"⟩,
          ⟨"policy:contractor-restrictions", "governed_by"⟩,
          ⟨"brick:Temperature_Setpoint", "targets"⟩] },
      { node_id := "constraint:setpoint-range", node_type := "constraint",
        label := "Setpoint Range: 60-80°F",
        description := some "SHACL: Absolute temperature limits for comfort and safety" },
      { node_id := "constraint:max-delta", node_type := "constraint",
        label := "Max Delta: 15°F",
        description := some "SHACL: Maximum temperature change in single adjustment" },
      { node_id := "constraint:operator-limit", node_type := "constraint",
        label := "Operator Limit: 5°F",
        description := some "SHACL: Reduced limit for operator role" },
      { node_id := "policy:operator-restrictions", node_type := "policy",
        label := "Operator: 5°F Max Change",
        description := some "ODRL: Operators limited to 5°F adjustments" },
      { node_id := "policy:contractor-restrictions", node_type := "policy",
        label := "Contractor: No Emergency Priority",
        description := some "ODRL: Contractors cannot use emergency priority" }],
    audit_descriptor := {
      summary_template := "\x7bzone_id\x7d setpoint changed to \x7bnew_setpoint\x7d°F (Priority: \x7bpriority\x7d)",
      icon := some "🌡️",
      detail_fields := [
        ⟨"zone_id", "Target Zone", "text"⟩,
        ⟨"new_setpoint", "New Setpoint", "temperature"⟩,
        ⟨"priority", "Priority Level", "text"⟩,
        ⟨"reason", "Reason", "text"⟩],
      formatters := [("new_setpoint", "temperature"), ("priority", "capitalize")] },
    shacl_constraints := [
      "Setpoint range: 60-80°F (comfort)",
      "Max delta: 5°F for operators, 15°F for managers",
      "Server room protection: 15-25°C critical range",
      "Occupancy constraints enforced"],
    odrl_policies := [
      ("operator", { permitted := true, constraints := [
        "max_delta: 5°F", "priority: low/medium only", "no_emergency_override: true"] }),
      ("facility_manager", { permitted := true, constraints := [
        "max_delta: 15°F", "priority: all levels", "emergency_override: true"] }),
      ("energy_manager", { permitted := true, constraints := [
        "max_delta: 15°F", "priority: all levels", "emergency_override: true",
        "optimization_access: true"] }),
      ("contractor", { permitted := true, constraints := [
        "max_delta: 15°F", "priority: low/medium only", "no_emergency_override: true",
        "temporary_access: true"] })],
    target_type := "brick:Temperature_Setpoint",
    required_permissions := ["zone:write", "setpoint:modify"],
    side_effects := ["hvac:mode_change", "power:consumption_change", "audit:log"],
    handler_function := "_handle_set_temperature",
    validation_class := "AdjustSetpointInput" }

/-- The load-shed descriptor instance
(descriptors/load_shed_descriptor.py lines 16 to 177). -/
def load_shed_descriptor : ActionDescriptor :=
  { action_id := "load-shed",
    action_name := "Load Shed - Reduce Lighting",
    action_type := "demand_response",
    description := "Demand management through strategic lighting reduction with occupancy protection",
    version := "1.0.0",
    ui_fields := [
      { field_name := "user_role", field_type := "select", label := "User / Role",
        required := true,
        default_value := some (.str "facility_manager:Facility Manager"),
        options := some [
          ⟨"operator:Operator", "Operator (Basic Controls)"⟩,
          ⟨"facility_manager:Facility Manager", "Facility Manager (Levels 1-3)"⟩,
          ⟨"energy_manager:Energy Manager", "Energy Manager (All Levels)"⟩,
          ⟨"contractor:Contractor", "Contractor (Limited Access)"⟩],
        help_text := some "Energy Manager required for shed levels 4-5" },
      { field_name := "shed_level", field_type := "number", label := "Shed Level (1-5)",
        required := true, default_value := some (.intv 2),
        min_value := some 1, max_value := some 5, step := some 1,
        help_text := some "1=20%, 2=40%, 3=50%, 4=60%, 5=80% reduction" },
      { field_name := "duration", field_type := "number", label := "Duration (minutes)",
        required := true, default_value := some (.intv 30),
        min_value := some 1, max_value := some 240, step := some 1,
        help_text := some "Max 240 min total, 120 min for levels 4-5" },
      { field_name := "reason", field_type := "text", label := "Reason",
        required := false,
        placeholder := some "e.g., Peak demand event",
        help_text := some "Optional explanation for audit trail" }],
    ui_layout := "single-column",
    graph_nodes := [
      { node_id := "action:load-shed", node_type := "action",
        label := "Load Shed - Reduce Lighting",
        description := some "Demand response through lighting control",
        relationships := [
          ⟨"constraint:shed-level-range", "has_constraint"⟩,
          ⟨"constraint:duration-limits", "has_constraint"⟩,
          ⟨"constraint:occupancy-protection", "has_constraint"⟩,
          ⟨"policy:energy-manager-level-45", "governed_by"⟩,
          ⟨"brick:Lighting_System", "targets"⟩] },
      { node_id := "constraint:shed-level-range", node_type := "constraint",
        label := "Shed Level: 1-5",
        description := some "SHACL: Five discrete reduction levels" },
      { node_id := "constraint:duration-limits", node_type := "constraint",
        label := "Duration: Max 240 min (120 min for L4-5)",
        description := some "SHACL: Time limits prevent excessive comfort impact" },
      { node_id := "constraint:occupancy-protection", node_type := "constraint",
        label := "Occupancy: Min 40% illumination",
        description := some "SHACL: Minimum lighting for occupied spaces" },
      { node_id := "policy:energy-manager-level-45", node_type := "policy",
        label := "Energy Manager: Required for L4-5",
        description := some "ODRL: High shed levels require energy manager authorization" }],
    audit_descriptor := {
      summary_template := "Load shed level \x7bshed_level\x7d for \x7bduration\x7d minutes",
      icon := some "⚡",
      detail_fields := [
        ⟨"shed_level", "Shed Level", "number"⟩,
        ⟨"duration", "Duration", "minutes"⟩,
        ⟨"zones", "Affected Zones", "list"⟩,
        ⟨"reason", "Reason", "text"⟩],
      formatters := [("shed_level", "shed_level"), ("duration", "minutes")] },
    shacl_constraints := [
      "Shed level: 1-5 discrete levels",
      "Duration: Max 240 minutes, Level 4-5 max 120 minutes",
      "Occupancy-aware: Min 40% illumination when occupied",
      "Server room exemption enforced"],
    odrl_policies := [
      ("operator", { permitted := true, constraints := [
        "max_shed_level: 3", "max_duration: 120",
        "requires_authorization: facility_manager"] }),
      ("facility_manager", { permitted := true, constraints := [
        "max_shed_level: 3", "max_duration: 240", "emergency_override: true"] }),
      ("energy_manager", { permitted := true, constraints := [
        "max_shed_level: 5", "max_duration: 240", "level_45_duration: 120",
        "demand_response_authority: true"] }),
      ("contractor",
        { permitted := false,
          reason := some "Load shedding requires operational authority" })],
    target_type := "brick:Lighting_System",
    required_permissions := ["zone:write", "lighting:control", "demand:manage"],
    side_effects := ["power:reduction", "comfort:degradation", "occupancy:notification"],
    handler_function := "_handle_load_shed",
    validation_class := "LoadShedInput" }

/-- The pre-cooling descriptor instance
(descriptors/pre_cooling_descriptor.py lines 16 to 262). -/
def pre_cooling_descriptor : ActionDescriptor :=
  { action_id := "pre-cooling",
    action_name := "Pre-Cooling - Optimize Peak Demand",
    action_type := "optimization",
    description := "Strategic pre-cooling during off-peak hours to reduce peak demand costs",
    version := "1.0.0",
    ui_fields := [
      { field_name := "user_role", field_type := "select", label := "User / Role",
        required := true,
        default_value := some (.str "facility_manager:Facility Manager"),
        options := some [
          ⟨"operator:Operator", "Operator (No Access)"⟩,
          ⟨"facility_manager:Facility Manager", "Facility Manager (3 zones, $50 limit)"⟩,
          ⟨"energy_manager:Energy Manager", "Energy Manager (Full Access)"⟩,
          ⟨"contractor:Contractor", "Contractor (No Access)"⟩],
        help_text := some "Pre-cooling requires optimization expertise" },
      { field_name := "zone_ids", field_type := "multi-select",
        label := "Select Zones for Pre-Cooling", required := true,
        options := some [⟨"dynamic", "Populated from available zones"⟩],
        help_text := some "Facility Mgr: max 3 zones" },
      { field_name := "target_temp", field_type := "number",
        label := "Target Temperature (°F)", required := true,
        default_value := some (.floatv 65.0),
        min_value := some 60, max_value := some 75, step := some 0.5,
        help_text := some "Range: 60-75°F for pre-cooling comfort" },
      { field_name := "start_time", field_type := "time",
        label := "Start Time (HH:MM, 24-hour)", required := true,
        default_value := some (.str "05:00"),
        pattern := some "^([01]\\d|2[0-3]):([0-5]\\d)$",
        placeholder := some "05:00",
        help_text := some "When to begin pre-cooling" },
      { field_name := "occupancy_start", field_type := "time",
        label := "Occupancy Start (HH:MM, 24-hour)", required := true,
        default_value := some (.str "08:00"),
        pattern := some "^([01]\\d|2[0-3]):([0-5]\\d)$",
        placeholder := some "08:00",
        help_text := some "When occupants arrive" },
      { field_name := "max_rate_delta", field_type := "number",
        label := "Max Cooling Rate (°F/hr)", required := true,
        default_value := some (.floatv 5.0),
        min_value := some 1, max_value := some 10, step := some 0.5,
        help_text := some "1-10°F/hr cooling rate limit" },
      { field_name := "electricity_rate", field_type := "number",
        label := "Electricity Rate ($/kWh)", required := true,
        default_value := some (.floatv 0.12),
        min_value := some 0.01, max_value := some 1, step := some 0.01,
        help_text := some "Cost per kilowatt-hour for cost estimation" },
      { field_name := "enable_adaptive", field_type := "checkbox",
        label := "Enable Adaptive Learning", required := false,
        default_value := some (.boolv true),
        help_text := some "Learn from historical patterns to optimize" },
      { field_name := "reason", field_type := "text", label := "Reason",
        required := true,
        placeholder := some "e.g., Peak demand reduction",
        help_text := some "Explanation for pre-cooling action" }],
    ui_layout := "single-column",
    graph_nodes := [
      { node_id := "action:pre-cooling", node_type := "action",
        label := "Pre-Cooling Optimization",
        description := some "Peak demand reduction through strategic cooling",
        relationships := [
          ⟨"constraint:target-temp-range", "has_constraint"⟩,
          ⟨"constraint:time-window", "has_constraint"⟩,
          ⟨"constraint:cooling-rate", "has_constraint"⟩,
          ⟨"constraint:economics-validation", "has_constraint"⟩,
          ⟨"policy:operator-denied", "governed_by"⟩,
          ⟨"policy:fm-zone-limit", "governed_by"⟩,
          ⟨"policy:fm-cost-limit", "governed_by"⟩,
          ⟨"policy:contractor-denied", "governed_by"⟩,
          ⟨"brick:HVAC_System", "targets"⟩] },
      { node_id := "constraint:target-temp-range", node_type := "constraint",
        label := "Target Temp: 60-75°F (≥62°F for economics)",
        description := some "SHACL: Temperature limits with economic validation" },
      { node_id := "constraint:time-window", node_type := "constraint",
        label := "Time Window: 30 min - 8 hours",
        description := some "SHACL: Pre-cooling window constraints" },
      { node_id := "constraint:cooling-rate", node_type := "constraint",
        label := "Cooling Rate: 1-10°F/hr",
        description := some "SHACL: Maximum cooling rate for equipment protection" },
      { node_id := "constraint:economics-validation", node_type := "constraint",
        label := "Economics: Target ≥62°F",
        description := some "SHACL: Prevent excessive energy waste" },
      { node_id := "policy:operator-denied", node_type := "policy",
        label := "Operator: No Access",
        description := some "ODRL: Requires optimization expertise" },
      { node_id := "policy:fm-zone-limit", node_type := "policy",
        label := "Facility Manager: Max 3 Zones",
        description := some "ODRL: Zone count limitation" },
      { node_id := "policy:fm-cost-limit", node_type := "policy",
        label := "Facility Manager: $50 Cost Limit",
        description := some "ODRL: Budget constraint" },
      { node_id := "policy:contractor-denied", node_type := "policy",
        label := "Contractor: No Access",
        description := some "ODRL: Requires building system knowledge" }],
    audit_descriptor := {
      summary_template := "\x7bzone_count\x7d zones pre-cooled to \x7btarget_temp\x7d°F (Cost: $\x7bestimated_cost\x7d)",
      icon := some "❄️",
      detail_fields := [
        ⟨"target_temp", "Target Temperature", "temperature"⟩,
        ⟨"start_time", "Start Time", "time"⟩,
        ⟨"occupancy_start", "Occupancy Start", "time"⟩,
        ⟨"max_rate_delta", "Max Cooling Rate", "cooling_rate"⟩,
        ⟨"electricity_rate", "Electricity Rate", "currency_rate"⟩,
        ⟨"estimated_cost", "Estimated Cost", "currency"⟩,
        ⟨"enable_adaptive", "Adaptive Learning", "boolean"⟩,
        ⟨"zones", "Zones", "zone_list"⟩,
        ⟨"reason", "Reason", "text"⟩],
      formatters := [
        ("target_temp", "temperature"), ("start_time", "time"),
        ("occupancy_start", "time"), ("max_rate_delta", "cooling_rate"),
        ("electricity_rate", "currency_rate"), ("estimated_cost", "currency"),
        ("enable_adaptive", "boolean_enabled"), ("zones", "zone_list")] },
    shacl_constraints := [
      "Target temperature: 60-75°F (≥62°F for economics)",
      "Time window: 30 minutes to 8 hours",
      "Max cooling rate: 1-10°F/hr",
      "No duplicate zones, no empty zone IDs",
      "Time format: HH:MM (24-hour)",
      "Overnight windows supported"],
    odrl_policies := [
      ("operator",
        { permitted := false,
          reason := some "Pre-cooling requires optimization expertise" }),
      ("facility_manager", { permitted := true, constraints := [
        "max_zones: 3", "max_cost: $50", "priority: low/medium only"] }),
      ("energy_manager", { permitted := true, constraints := [
        "max_zones: unlimited", "max_cost: $500", "priority: low/medium/high",
        "optimization_authority: true"] }),
      ("contractor",
        { permitted := false,
          reason := some "Pre-cooling requires building system knowledge" })],
    target_type := "brick:HVAC_System",
    required_permissions := ["zone:write", "hvac:control", "demand:optimize", "pre-cooling:execute"],
    side_effects := ["power:consumption_increase", "peak:demand_reduction", "cost:savings", "comfort:optimization"],
    handler_function := "_handle_pre_cooling",
    validation_class := "PreCoolingInput",
    cost_calculator := some "calculate_pre_cooling_cost" }

/-- The process-wide registry after the three descriptor modules have
registered, in import order (descriptors/__init__.py): adjust-setpoint,
load-shed, pre-cooling. -/
def action_registry : ActionRegistry :=
  ((ActionRegistry.register ⟨[]⟩ adjust_setpoint_descriptor).register
    load_shed_descriptor).register pre_cooling_descriptor

/-- The four standard governance roles. -/
def standardRoles : List String :=
  ["operator", "facility_manager", "energy_manager", "contractor"]

/-- Whether a descriptor carries a policy for the role and, when the
policy denies the role, a non-empty reason string. -/
def roleHasValidPolicy (d : ActionDescriptor) (role : String) : Bool :=
  match d.odrl_policies.lookup role with
  | none => false
  | some pol =>
    if pol.permitted then true
    else
      match pol.reason with
      | some s => decide (s ≠ "")
      | none => false

/-- A copy of the shipped adjust-setpoint descriptor with its ui_fields
list emptied. -/
def c8descriptor : ActionDescriptor :=
  { adjust_setpoint_descriptor with ui_fields := [] }

/-- A registry holding only the emptied copy. -/
def c8registry : ActionRegistry :=
  ActionRegistry.register ⟨[]⟩ c8descriptor

/-- The type tags of the generic validator rule table
(services/validator.py lines 261 to 275). -/
inductive ParamType
  | string
  | number
  | boolean
  | object
  | array
deriving DecidableEq

/-- Python type name of a scalar value, as used in the type-mismatch
message (type(param_value).__name__). -/
def pyTypeName : PyValue → String
  | .str _ => "str"
  | .intv _ => "int"
  | .floatv _ => "float"
  | .boolv _ => "bool"
  | .pynone => "NoneType"

/-- Numeric content of a scalar value under Python arithmetic comparison:
ints and floats directly; a bool compares as 1 or 0 because bool is an int
subtype. -/
def pyNum : PyValue → Option ℚ
  | .intv n => some (n : ℚ)
  | .floatv q => some q
  | .boolv b => some (if b then 1 else 0)
  | _ => none

namespace ActionValidator

/-- One parameter rule of the table: the entries of
validation_rules[action][validations][param] (services/validator.py lines
41 to 127).  Every enum list in the table holds strings. -/
structure ParamRule where
  ptype : Option ParamType := none
  penum : Option (List String) := none
  pmin : Option ℚ := none
  pmax : Option ℚ := none
  punit : Option String := none
deriving DecidableEq

/-- One action entry of the table. -/
structure ActionRule where
  required_params : List String
  optional_params : List String
  validations : List (String × ParamRule)
deriving DecidableEq

/-- Structured form of the error messages of validate_action and
_validate_parameter. -/
inductive VError
  | unsupportedActionType (t : String)
  | missingRequiredParams (names : List String)
  | typeMismatch (param : String) (expected : ParamType) (gotType : String)
  | enumViolation (param : String) (allowed : List String) (got : PyValue)
  | belowMin (param : String) (minv : ℚ) (got : PyValue)
  | aboveMax (param : String) (maxv : ℚ) (got : PyValue)
deriving DecidableEq

/-- Structured form of the warning messages of validate_action.  The zone
capability and temporal checks are placeholders returning no warnings, so
unknown-parameter warnings are the only ones produced. -/
inductive VWarning
  | unknownParam (name : String)
deriving DecidableEq

/-- ValidationResponse (models/__init__.py lines 46 to 50): empty lists
are passed as None. -/
structure ValidationResponse where
  is_valid : Bool
  errors : Option (List VError) := none
  warnings : Option (List VWarning) := none
deriving DecidableEq

/-- The errors-if-errors-else-None wrapping of validate_action. -/
def optList {α : Type} : List α → Option (List α)
  | [] => none
  | xs => some xs

/-- The error list a response carries (None meaning empty). -/
def errorsList (resp : ValidationResponse) : List VError :=
  resp.errors.getD []

/-- The warning list a response carries (None meaning empty). -/
def warningsList (resp : ValidationResponse) : List VWarning :=
  resp.warnings.getD []

/-- _check_type (services/validator.py lines 261 to 275): isinstance
against the type map; number maps to (int, float), and a Python bool is an
instance of int, so booleans pass the number check.  Scalar values are
never instances of dict or list. -/
def check_type (v : PyValue) : ParamType → Bool
  | .string => match v with | .str _ => true | _ => false
  | .number => match v with | .intv _ => true | .floatv _ => true | .boolv _ => true | _ => false
  | .boolean => match v with | .boolv _ => true | _ => false
  | .object => false
  | .array => false

/-- The enum membership check of _validate_parameter (lines 239 to 244):
param_value not in enum_list; a non-string scalar is never equal to any of
the string entries the table holds. -/
def enumErrors (name : String) (v : PyValue) : Option (List String) → List VError
  | none => []
  | some allowed =>
    match v with
    | .str s => if s ∈ allowed then [] else [.enumViolation name allowed v]
    | _ => [.enumViolation name allowed v]

/-- The min/max range checks of _validate_parameter (lines 246 to 257),
applied only when the declared type is number.  The none branch of pyNum
is unreachable there because the type check already passed. -/
def rangeErrors (name : String) (v : PyValue) (rule : ParamRule) : List VError :=
  if rule.ptype = some .number then
    match pyNum v with
    | some q =>
      (match rule.pmin with
       | some m => if q < m then [.belowMin name m v] else []
       | none => []) ++
      (match rule.pmax with
       | some m => if m < q then [.aboveMax name m v] else []
       | none => [])
    | none => []
  else []

/-- _validate_parameter (services/validator.py lines 208 to 259): the type
check runs first and on mismatch returns just the type error, skipping the
enum and range checks. -/
def validate_parameter (name : String) (v : PyValue) (rule : ParamRule) : List VError :=
  match rule.ptype with
  | some t =>
    if check_type v t then enumErrors name v rule.penum ++ rangeErrors name v rule
    else [.typeMismatch name t (pyTypeName v)]
  | none => enumErrors name v rule.penum ++ rangeErrors name v rule

/-- The per-parameter error accumulation loop of validate_action (lines
170 to 177): a parameter with a rule contributes its rule errors, a
parameter without a rule contributes none. -/
def paramErrors : ActionRule → List (String × PyValue) → List VError
  | _, [] => []
  | r, pv :: rest =>
    (match r.validations.lookup pv.1 with
     | some rule => validate_parameter pv.1 pv.2 rule
     | none => []) ++ paramErrors r rest

/-- The per-parameter warning accumulation of validate_action (lines 178
to 179): a parameter with no rule that is not declared optional yields an
unknown-parameter warning. -/
def paramWarnings : ActionRule → List (String × PyValue) → List VWarning
  | _, [] => []
  | r, pv :: rest =>
    (match r.validations.lookup pv.1 with
     | some _ => []
     | none => if pv.1 ∈ r.optional_params then [] else [.unknownParam pv.1]) ++
    paramWarnings r rest

/-- The required parameters absent from the bundle (lines 162 to 165), in
table order. -/
def missingParams (r : ActionRule) (ps : List (String × PyValue)) : List String :=
  r.required_params.filter fun par => (ps.lookup par).isNone

/-- The single combined missing-parameters error (lines 166 to 167). -/
def missingErrors (r : ActionRule) (ps : List (String × PyValue)) : List VError :=
  if missingParams r ps = [] then [] else [.missingRequiredParams (missingParams r ps)]

/-- Rule entry for setTemperature. -/
def setTemperatureRule : ActionRule :=
  { required_params := ["setpoint"], optional_params := ["mode"],
    validations := [
      ("setpoint",
        { ptype := some .number, pmin := some 55, pmax := some 85,
          punit := some "fahrenheit" }),
      ("mode", { ptype := some .string, penum := some ["heat", "cool", "auto", "off"] })] }

/-- Rule entry for setOccupancyMode. -/
def setOccupancyModeRule : ActionRule :=
  { required_params := ["mode"], optional_params := [],
    validations := [
      ("mode",
        { ptype := some .string,
          penum := some ["occupied", "unoccupied", "standby"] })] }

/-- Rule entry for adjustVentilation. -/
def adjustVentilationRule : ActionRule :=
  { required_params := ["rate"], optional_params := ["mode"],
    validations := [
      ("rate",
        { ptype := some .number, pmin := some 0, pmax := some 10000,
          punit := some "cfm" }),
      ("mode",
        { ptype := some .string,
          penum := some ["constant", "demand-based", "scheduled"] })] }

/-- Rule entry for enableEconomizer. -/
def enableEconomizerRule : ActionRule :=
  { required_params := ["enabled"],
    optional_params := ["min_outdoor_temp", "max_outdoor_temp"],
    validations := [
      ("enabled", { ptype := some .boolean }),
      ("min_outdoor_temp", { ptype := some .number, pmin := some (-20), pmax := some 120 }),
      ("max_outdoor_temp", { ptype := some .number, pmin := some (-20), pmax := some 120 })] }

/-- Rule entry for setLightingLevel. -/
def setLightingLevelRule : ActionRule :=
  { required_params := ["level"], optional_params := ["duration", "fade_time"],
    validations := [
      ("level",
        { ptype := some .number, pmin := some 0, pmax := some 100,
          punit := some "percent" }),
      ("duration",
        { ptype := some .number, pmin := some 0, pmax := some 86400,
          punit := some "seconds" }),
      ("fade_time",
        { ptype := some .number, pmin := some 0, pmax := some 300,
          punit := some "seconds" })] }

/-- _load_validation_rules (services/validator.py lines 36 to 127). -/
def validation_rules : List (String × ActionRule) :=
  [("setTemperature", setTemperatureRule),
   ("setOccupancyMode", setOccupancyModeRule),
   ("adjustVentilation", adjustVentilationRule),
   ("enableEconomizer", enableEconomizerRule),
   ("setLightingLevel", setLightingLevelRule)]

/-- validate_action (services/validator.py lines 129 to 206): unknown
action types fail immediately with a single error; otherwise the combined
missing-parameters error (when any) is followed by the per-parameter
errors, warnings collect unknown parameters, the placeholder zone and
temporal checks add nothing, and empty lists are passed as None. -/
def validate_action (action_type : String) (parameters : List (String × PyValue))
    (_target_zone : String) : ValidationResponse :=
  match validation_rules.lookup action_type with
  | none =>
    { is_valid := false, errors := some [.unsupportedActionType action_type],
      warnings := none }
  | some rules =>
    { is_valid := (missingErrors rules parameters ++ paramErrors rules parameters).isEmpty,
      errors := optList (missingErrors rules parameters ++ paramErrors rules parameters),
      warnings := optList (paramWarnings rules parameters) }

end ActionValidator

open ActionValidator

namespace AdjustSetpoint

lemma validate_zone_id_nil {s : String} (h : 1 ≤ s.length) :
    validate_zone_id s = [] := by
  unfold validate_zone_id
  rw [if_neg (by omega)]

lemma validate_new_setpoint_nil {v : ℚ} (h1 : 60 ≤ v) (h2 : v ≤ 80) :
    validate_new_setpoint v = [] := by
  unfold validate_new_setpoint
  rw [if_neg (by linarith), if_neg (by linarith),
    if_neg (by push_neg; exact ⟨by linarith, by linarith⟩)]

lemma validate_reason_nil {s : String} (h : 1 ≤ s.length) :
    validate_reason s = [] := by
  unfold validate_reason
  rw [if_neg (by omega)]

lemma validate_max_change_nil {v : ℚ} (h1 : 0 < v) (h2 : v ≤ 15) :
    validate_max_change v = [] := by
  unfold validate_max_change
  rw [if_neg (by linarith), if_neg (by linarith)]

lemma validate_current_setpoint_nil {o : Option ℚ}
    (h : ∀ c, o = some c → 50 ≤ c ∧ c ≤ 90) :
    validate_current_setpoint o = [] := by
  cases o with
  | none => rfl
  | some c =>
    obtain ⟨h1, h2⟩ := h c rfl
    simp only [validate_current_setpoint]
    rw [if_neg (by linarith), if_neg (by linarith)]

lemma validate_setpoint_change_none {p : AdjustSetpointInput}
    (h : ∀ c, p.current_setpoint = some c → |p.new_setpoint - c| ≤ p.max_change) :
    validate_setpoint_change p = none := by
  unfold validate_setpoint_change
  cases hc : p.current_setpoint with
  | none => rfl
  | some c => exact if_neg (not_lt.mpr (h c hc))

end AdjustSetpoint

/-- C1: a payload that satisfies every single-field constraint (non-empty
zone_id and reason, new_setpoint in the comfort range 60 to 80, max_change
in (0, 15], current_setpoint absent or in [50, 90]) and whose change
magnitude respects max_change when current_setpoint is given, constructs
successfully and round-trips all fields unchanged. -/
theorem c1_adjust_setpoint_roundtrip (p : AdjustSetpointInput)
    (hz : 1 ≤ p.zone_id.length) (hr : 1 ≤ p.reason.length)
    (hlo : 60 ≤ p.new_setpoint) (hhi : p.new_setpoint ≤ 80)
    (hmc0 : 0 < p.max_change) (hmc : p.max_change ≤ 15)
    (hcur : ∀ c, p.current_setpoint = some c → 50 ≤ c ∧ c ≤ 90)
    (hchg : ∀ c, p.current_setpoint = some c → |p.new_setpoint - c| ≤ p.max_change) :
    AdjustSetpoint.construct p = .ok p := by
  have hfe : AdjustSetpoint.fieldErrors p = [] := by
    unfold AdjustSetpoint.fieldErrors
    rw [AdjustSetpoint.validate_zone_id_nil hz,
      AdjustSetpoint.validate_new_setpoint_nil hlo hhi,
      AdjustSetpoint.validate_reason_nil hr,
      AdjustSetpoint.validate_max_change_nil hmc0 hmc,
      AdjustSetpoint.validate_current_setpoint_nil hcur]
    rfl
  unfold AdjustSetpoint.construct
  rw [hfe, AdjustSetpoint.validate_setpoint_change_none hchg]

/-- Witness for C1 at the concrete payload zone Z1, setpoint 72, reason
non-empty, medium priority, max_change 5, current setpoint 70. -/
theorem c1_adjust_setpoint_roundtrip_witness :
    AdjustSetpoint.construct c1payload = .ok c1payload :=
  c1_adjust_setpoint_roundtrip c1payload (by decide) (by decide)
    (by norm_num [c1payload]) (by norm_num [c1payload])
    (by norm_num [c1payload]) (by norm_num [c1payload])
    (fun c hc => by
      simp only [c1payload, Option.some.injEq] at hc
      rw [← hc]
      norm_num)
    (fun c hc => by
      simp only [c1payload, Option.some.injEq] at hc
      rw [← hc]
      norm_num [c1payload])

/-- C5: new_setpoint is range-checked twice.  Values outside the hard
bound [50, 90] fail the base Field constraint; values inside the hard
bound but outside [60, 80] fail the comfort-range validator; and a payload
with new_setpoint = 59.0 whose other fields are valid always fails with
exactly the comfort-range error. -/
theorem c5_adjust_setpoint_two_tier_range :
    (∀ v : ℚ, v < 50 → AdjustSetpoint.validate_new_setpoint v = [.setpointTooSmall v]) ∧
    (∀ v : ℚ, 90 < v → AdjustSetpoint.validate_new_setpoint v = [.setpointTooLarge v]) ∧
    (∀ v : ℚ, 50 ≤ v → v ≤ 90 → v < 60 ∨ 80 < v →
      AdjustSetpoint.validate_new_setpoint v = [.setpointOutsideComfort v]) ∧
    (∀ p : AdjustSetpointInput, p.new_setpoint = 59 →
      1 ≤ p.zone_id.length → 1 ≤ p.reason.length →
      0 < p.max_change → p.max_change ≤ 15 →
      (∀ c, p.current_setpoint = some c → 50 ≤ c ∧ c ≤ 90) →
      AdjustSetpoint.construct p = .error [.setpointOutsideComfort 59]) := by
  refine ⟨?_, ?_, ?_, ?_⟩
  · intro v hv
    unfold AdjustSetpoint.validate_new_setpoint
    rw [if_pos hv]
  · intro v hv
    unfold AdjustSetpoint.validate_new_setpoint
    rw [if_neg (by linarith), if_pos hv]
  · intro v h1 h2 h3
    unfold AdjustSetpoint.validate_new_setpoint
    rw [if_neg (by linarith), if_neg (by linarith), if_pos h3]
  · intro p hsp hz hr hmc0 hmc hcur
    have hv : AdjustSetpoint.validate_new_setpoint p.new_setpoint =
        [.setpointOutsideComfort 59] := by
      rw [hsp]
      unfold AdjustSetpoint.validate_new_setpoint
      rw [if_neg (by norm_num), if_neg (by norm_num), if_pos (by norm_num)]
    have hfe : AdjustSetpoint.fieldErrors p = [.setpointOutsideComfort 59] := by
      unfold AdjustSetpoint.fieldErrors
      rw [AdjustSetpoint.validate_zone_id_nil hz, hv,
        AdjustSetpoint.validate_reason_nil hr,
        AdjustSetpoint.validate_max_change_nil hmc0 hmc,
        AdjustSetpoint.validate_current_setpoint_nil hcur]
      rfl
    unfold AdjustSetpoint.construct
    rw [hfe]

/-- Witness for C5 at new_setpoint 59 with otherwise valid fields, and at
the concrete out-of-hard-range value 49. -/
theorem c5_adjust_setpoint_two_tier_range_witness :
    AdjustSetpoint.validate_new_setpoint 49 = [.setpointTooSmall 49] ∧
    AdjustSetpoint.construct c5payload = .error [.setpointOutsideComfort 59] :=
  ⟨c5_adjust_setpoint_two_tier_range.1 49 (by norm_num),
   c5_adjust_setpoint_two_tier_range.2.2.2 c5payload rfl (by decide) (by decide)
     (by norm_num [c5payload]) (by norm_num [c5payload])
     (fun c hc => by simp [c5payload] at hc)⟩

namespace LoadShed

lemma ls_validate_duration_cap {l v : ℤ} (h0 : 0 < v) (h240 : v ≤ 240)
    (h4 : 4 ≤ l) (h120 : 120 < v) :
    validate_duration (some l) v = [.shedDurationTooLong l v] := by
  unfold validate_duration
  rw [if_neg (by omega), if_neg (by omega),
    if_pos (show 4 ≤ (some l).getD 0 ∧ 120 < v from ⟨h4, h120⟩)]
  rfl

lemma ls_equipment_nil {v : List String} (h : ∀ s ∈ v, s ∈ equipmentChoices) :
    validate_equipment_types v = [] := by
  unfold validate_equipment_types
  rw [List.filterMap_eq_nil_iff]
  intro s hs
  rw [if_pos (h s hs)]

lemma ls_reason_nil {s : String} (h : 1 ≤ s.length) :
    validate_ls_reason s = [] := by
  unfold validate_ls_reason
  rw [if_neg (by omega)]

lemma ls_min_comfort_nil {v : ℚ} (h1 : 60 ≤ v) (h2 : v ≤ 75) :
    validate_min_comfort v = [] := by
  unfold validate_min_comfort
  rw [if_neg (by linarith), if_neg (by linarith)]

lemma ls_max_comfort_nil {v : ℚ} (h1 : 70 ≤ v) (h2 : v ≤ 85) :
    validate_max_comfort v = [] := by
  unfold validate_max_comfort
  rw [if_neg (by linarith), if_neg (by linarith)]

lemma ls_savings_nil {o : Option ℚ} (h : ∀ v, o = some v → 0 ≤ v) :
    validate_expected_savings o = [] := by
  cases o with
  | none => rfl
  | some v =>
    simp only [validate_expected_savings]
    rw [if_neg (not_lt.mpr (h v rfl))]

lemma ls_construct_ok (p : LoadShedInput)
    (h1 : fieldErrors p = [])
    (h2 : validate_comfort_range p = none)
    (h3 : validate_priority_zones p = none) :
    construct p = .ok p := by
  unfold construct
  rw [h1, h2, h3]

/-- Under every single-field check except the level-dependent duration
cap, a payload with shed_level at least 4 and duration above 120 produces
exactly the duration-cap field error. -/
lemma ls_fieldErrors_cap (p : LoadShedInput)
    (hz : checkZoneIds p.zone_ids = [])
    (hl : p.shed_level ∈ shedLevelChoices)
    (hd0 : 0 < p.duration_minutes) (hd240 : p.duration_minutes ≤ 240)
    (heq : ∀ s ∈ p.equipment_types, s ∈ equipmentChoices)
    (hr : 1 ≤ p.reason.length)
    (hmin1 : 60 ≤ p.min_comfort_temp) (hmin2 : p.min_comfort_temp ≤ 75)
    (hmax1 : 70 ≤ p.max_comfort_temp) (hmax2 : p.max_comfort_temp ≤ 85)
    (hsav : ∀ v, p.expected_savings_kw = some v → 0 ≤ v)
    (hcap1 : 4 ≤ p.shed_level) (hcap2 : 120 < p.duration_minutes) :
    fieldErrors p = [.shedDurationTooLong p.shed_level p.duration_minutes] := by
  unfold fieldErrors
  rw [hz, if_pos hl, if_pos hl,
    ls_validate_duration_cap hd0 hd240 hcap1 hcap2,
    ls_equipment_nil heq, ls_reason_nil hr,
    ls_min_comfort_nil hmin1 hmin2, ls_max_comfort_nil hmax1 hmax2,
    ls_savings_nil hsav]
  simp

end LoadShed

/-- C4: with shed_level at least 4, any duration above 120 minutes is
rejected by the level-dependent cap even though the base upper bound is
240; the concrete payload with level 5 and 150 minutes is rejected while
the same duration at level 3 is accepted. -/
theorem c4_shed_level_caps_duration :
    (∀ p : LoadShedInput,
      checkZoneIds p.zone_ids = [] →
      p.shed_level ∈ shedLevelChoices →
      0 < p.duration_minutes → p.duration_minutes ≤ 240 →
      (∀ s ∈ p.equipment_types, s ∈ equipmentChoices) →
      1 ≤ p.reason.length →
      60 ≤ p.min_comfort_temp → p.min_comfort_temp ≤ 75 →
      70 ≤ p.max_comfort_temp → p.max_comfort_temp ≤ 85 →
      (∀ v, p.expected_savings_kw = some v → 0 ≤ v) →
      4 ≤ p.shed_level → 120 < p.duration_minutes →
      LoadShed.construct p =
        .error [.shedDurationTooLong p.shed_level p.duration_minutes]) ∧
    LoadShed.construct c4rejected = .error [.shedDurationTooLong 5 150] ∧
    LoadShed.construct c4accepted = .ok c4accepted := by
  refine ⟨?_, rfl, LoadShed.ls_construct_ok c4accepted rfl ?_ rfl⟩
  case refine_2 =>
    unfold LoadShed.validate_comfort_range
    norm_num [c4accepted]
  intro p hz hl hd0 hd240 heq hr hmin1 hmin2 hmax1 hmax2 hsav hcap1 hcap2
  unfold LoadShed.construct
  rw [LoadShed.ls_fieldErrors_cap p hz hl hd0 hd240 heq hr hmin1 hmin2
    hmax1 hmax2 hsav hcap1 hcap2]

/-- Witness for C4: the general cap statement applied at the concrete
rejected payload. -/
theorem c4_shed_level_caps_duration_witness :
    LoadShed.construct c4rejected = .error [.shedDurationTooLong 5 150] :=
  c4_shed_level_caps_duration.1 c4rejected rfl (by decide)
    (by decide) (by decide) (by decide) (by decide)
    (by norm_num [c4rejected]) (by norm_num [c4rejected])
    (by norm_num [c4rejected]) (by norm_num [c4rejected])
    (fun v hv => by simp [c4rejected] at hv) (by decide) (by decide)

/-- C3 counterexample: a payload that passes all single-field checks other
than the duration cap, and violates both the comfort-temperature rule (the
range 72 minus 70 is below 5) and the duration cap, fails with the
duration error, not the comfort-temperature error, because the duration
cap is a field validator that runs before any model validator. -/
theorem c3_cross_field_order_counterexample :
    LoadShed.construct c3payload = .error [.shedDurationTooLong 5 150] ∧
    LoadShed.validate_comfort_range c3payload =
      some (.comfortRangeTooNarrow 2) ∧
    c3payload.min_comfort_temp < c3payload.max_comfort_temp := by
  refine ⟨rfl, ?_, by norm_num [c3payload]⟩
  unfold LoadShed.validate_comfort_range
  norm_num [c3payload]

/-- C3 amended: the duration cap (rule 4) is checked during field
validation, before the model validators that implement the comfort rule
(2) and the priority-zone rule (3); hence a payload that passes its other
single-field checks but violates both the comfort-temperature rule and the
duration cap reports the duration-cap error, not the comfort error. -/
theorem c3_duration_cap_error_wins (p : LoadShedInput)
    (hz : checkZoneIds p.zone_ids = [])
    (hl : p.shed_level ∈ shedLevelChoices)
    (hd0 : 0 < p.duration_minutes) (hd240 : p.duration_minutes ≤ 240)
    (heq : ∀ s ∈ p.equipment_types, s ∈ equipmentChoices)
    (hr : 1 ≤ p.reason.length)
    (hmin1 : 60 ≤ p.min_comfort_temp) (hmin2 : p.min_comfort_temp ≤ 75)
    (hmax1 : 70 ≤ p.max_comfort_temp) (hmax2 : p.max_comfort_temp ≤ 85)
    (hsav : ∀ v, p.expected_savings_kw = some v → 0 ≤ v)
    (hcap1 : 4 ≤ p.shed_level) (hcap2 : 120 < p.duration_minutes)
    (hcomfort : p.max_comfort_temp ≤ p.min_comfort_temp ∨
      p.max_comfort_temp - p.min_comfort_temp < 5) :
    LoadShed.construct p =
      .error [.shedDurationTooLong p.shed_level p.duration_minutes] ∧
    (LoadShed.validate_comfort_range p).isSome := by
  constructor
  · unfold LoadShed.construct
    rw [LoadShed.ls_fieldErrors_cap p hz hl hd0 hd240 heq hr hmin1 hmin2
      hmax1 hmax2 hsav hcap1 hcap2]
  · unfold LoadShed.validate_comfort_range
    by_cases hle : p.max_comfort_temp ≤ p.min_comfort_temp
    · rw [if_pos hle]
      rfl
    · rcases hcomfort with hc | hc
      · exact absurd hc hle
      · rw [if_neg hle, if_pos hc]
        rfl

/-- Witness for the amended C3 at the concrete payload violating both
rules. -/
theorem c3_duration_cap_error_wins_witness :
    LoadShed.construct c3payload = .error [.shedDurationTooLong 5 150] ∧
    (LoadShed.validate_comfort_range c3payload).isSome :=
  c3_duration_cap_error_wins c3payload rfl (by decide)
    (by decide) (by decide) (by decide) (by decide)
    (by norm_num [c3payload]) (by norm_num [c3payload])
    (by norm_num [c3payload]) (by norm_num [c3payload])
    (fun v hv => by simp [c3payload] at hv) (by decide) (by decide)
    (Or.inr (by norm_num [c3payload]))

namespace PreCooling

lemma pc_time_window_none_iff (p : PreCoolingInput) :
    validate_time_window p = none ↔
      30 ≤ timeWindow p.start_time p.occupancy_start ∧
      timeWindow p.start_time p.occupancy_start ≤ 480 := by
  unfold validate_time_window
  split_ifs with h1 h2
  · simp only [reduceCtorEq, false_iff]
    omega
  · simp only [reduceCtorEq, false_iff]
    omega
  · simp only [true_iff]
    omega

lemma pc_construct_ok_iff (p : PreCoolingInput)
    (h1 : fieldErrors p = []) (h2 : validate_outdoor_temps p = none) :
    construct p = .ok p ↔ validate_time_window p = none := by
  unfold construct
  rw [h1]
  cases hvt : validate_time_window p with
  | none => simp [h2]
  | some e => simp

end PreCooling

/-- C2: the pre-cooling window is the occupancy minute minus the start
minute, with 1440 minutes added first whenever the occupancy minute is
strictly earlier in the day than the start minute; a payload whose fields
validate is accepted exactly when the window is between 30 and 480
minutes inclusive; and the overnight 23:00 to 07:00 payload has a window
of exactly 480 minutes and constructs successfully. -/
theorem c2_pre_cooling_time_window :
    (∀ s o : String, PreCooling.hhmmMinutes o < PreCooling.hhmmMinutes s →
      PreCooling.timeWindow s o =
        PreCooling.hhmmMinutes o + 1440 - PreCooling.hhmmMinutes s) ∧
    (∀ s o : String, PreCooling.hhmmMinutes s ≤ PreCooling.hhmmMinutes o →
      PreCooling.timeWindow s o =
        PreCooling.hhmmMinutes o - PreCooling.hhmmMinutes s) ∧
    (∀ p : PreCoolingInput,
      PreCooling.fieldErrors p = [] →
      PreCooling.validate_outdoor_temps p = none →
      (PreCooling.construct p = .ok p ↔
        30 ≤ PreCooling.timeWindow p.start_time p.occupancy_start ∧
        PreCooling.timeWindow p.start_time p.occupancy_start ≤ 480)) ∧
    PreCooling.timeWindow "23:00" "07:00" = 480 ∧
    PreCooling.construct pc23payload = .ok pc23payload := by
  refine ⟨?_, ?_, ?_, rfl, ?_⟩
  · intro s o h
    unfold PreCooling.timeWindow
    rw [if_pos h]
    norm_num
  · intro s o h
    unfold PreCooling.timeWindow
    rw [if_neg (not_lt.mpr h)]
  · intro p h1 h2
    rw [PreCooling.pc_construct_ok_iff p h1 h2,
      PreCooling.pc_time_window_none_iff p]
  · exact (PreCooling.pc_construct_ok_iff pc23payload rfl rfl).mpr
      (PreCooling.pc_time_window_none_iff pc23payload |>.mpr
        (by constructor <;> decide))

/-- Witness for C2: the acceptance criterion applied at the concrete
overnight payload, whose window is exactly the inclusive 480-minute upper
boundary. -/
theorem c2_pre_cooling_time_window_witness :
    PreCooling.construct pc23payload = .ok pc23payload :=
  (c2_pre_cooling_time_window.2.2.1 pc23payload rfl rfl).mpr
    (by constructor <;> decide)

lemma mem_errIf {c : Prop} [Decidable c] {m s : String} :
    s ∈ errIf c m ↔ c ∧ s = m := by
  unfold errIf
  split_ifs with h <;> simp [h]

lemma errIf_eq_nil {c : Prop} [Decidable c] {m : String} :
    errIf c m = [] ↔ ¬c := by
  unfold errIf
  split_ifs with h <;> simp [h]

/-- C6: validate_completeness returns a single not-found error for an
unregistered action id; for a registered descriptor it accumulates one
independent error per failing check (empty ui_fields, graph_nodes, audit
summary template, shacl_constraints, odrl_policies, handler_function,
validation_class) with the boolean true exactly when the error list is
empty; and the shipped adjust-setpoint descriptor is complete. -/
theorem c6_validate_completeness :
    (∀ (r : ActionRegistry) (id : String), r.get id = none →
      r.validate_completeness id =
        (false, ["Action \x27" ++ id ++ "\x27 not found in registry"])) ∧
    (∀ (r : ActionRegistry) (id : String) (d : ActionDescriptor), r.get id = some d →
      ((r.validate_completeness id).1 = true ↔ (r.validate_completeness id).2 = []) ∧
      ("No UI fields defined" ∈ (r.validate_completeness id).2 ↔ d.ui_fields = []) ∧
      ("No graph nodes defined" ∈ (r.validate_completeness id).2 ↔ d.graph_nodes = []) ∧
      ("No audit summary template defined" ∈ (r.validate_completeness id).2 ↔
        d.audit_descriptor.summary_template = "") ∧
      ("No SHACL constraints defined" ∈ (r.validate_completeness id).2 ↔
        d.shacl_constraints = []) ∧
      ("No ODRL policies defined" ∈ (r.validate_completeness id).2 ↔
        d.odrl_policies = []) ∧
      ("No handler function specified" ∈ (r.validate_completeness id).2 ↔
        d.handler_function = "") ∧
      ("No validation class specified" ∈ (r.validate_completeness id).2 ↔
        d.validation_class = "")) ∧
    action_registry.validate_completeness "adjust-setpoint" = (true, []) := by
  refine ⟨?_, ?_, ?_⟩
  · intro r id h
    unfold ActionRegistry.validate_completeness
    rw [h]
  · intro r id d h
    simp only [ActionRegistry.validate_completeness, h]
    refine ⟨?_, ?_, ?_, ?_, ?_, ?_, ?_, ?_⟩ <;>
      simp [mem_errIf, errIf_eq_nil, List.isEmpty_iff]
  · rfl

/-- Witness for C6: the not-found branch applied at a concrete missing id
in the shipped registry, and the per-check characterization applied to the
shipped adjust-setpoint descriptor. -/
theorem c6_validate_completeness_witness :
    action_registry.validate_completeness "no-such-action" =
      (false, ["Action \x27no-such-action\x27 not found in registry"]) ∧
    ("No UI fields defined" ∈ (action_registry.validate_completeness "adjust-setpoint").2 ↔
      adjust_setpoint_descriptor.ui_fields = []) :=
  ⟨c6_validate_completeness.1 action_registry "no-such-action" rfl,
   (c6_validate_completeness.2.1 action_registry "adjust-setpoint"
     adjust_setpoint_descriptor rfl).2.1⟩

/-- C7: each of the three shipped descriptors has an odrl_policies entry
for every one of the four standard roles, and every entry with permitted
false carries a non-empty reason string. -/
theorem c7_odrl_policies_cover_roles :
    ∀ d ∈ [adjust_setpoint_descriptor, load_shed_descriptor, pre_cooling_descriptor],
      ∀ role ∈ standardRoles, roleHasValidPolicy d role = true := by
  decide

/-- Witness for C7 at the load-shed descriptor and the contractor role,
the only denied role of that descriptor. -/
theorem c7_odrl_policies_cover_roles_witness :
    roleHasValidPolicy load_shed_descriptor "contractor" = true :=
  c7_odrl_policies_cover_roles load_shed_descriptor
    (List.mem_cons_of_mem _ (List.mem_cons_self _ _)) "contractor" (by decide)

/-- C8 counterexample: aggregate construction accepts a descriptor whose
ui_fields list is empty; the claim that every constructible
ActionDescriptor has non-empty ui_fields and graph_nodes is false on the
code, which declares both lists without a length constraint. -/
theorem c8_construction_accepts_empty_ui_fields :
    constructActionDescriptor c8descriptor = .ok c8descriptor ∧
    c8descriptor.ui_fields = [] :=
  ⟨rfl, rfl⟩

/-- C8 amended: construction performs only the Literal value checks and in
particular never rejects an empty ui_fields or graph_nodes list; the
non-emptiness of both lists is enforced only by the separate
validate_completeness diagnostic, which reports them as accumulated
errors. -/
theorem c8_emptiness_checked_only_by_completeness :
    (∀ d : ActionDescriptor, actionDescriptorFieldErrors d = [] →
      constructActionDescriptor d = .ok d) ∧
    (∀ (r : ActionRegistry) (id : String) (d : ActionDescriptor),
      r.get id = some d → d.ui_fields = [] →
      (r.validate_completeness id).1 = false ∧
      "No UI fields defined" ∈ (r.validate_completeness id).2) ∧
    (∀ (r : ActionRegistry) (id : String) (d : ActionDescriptor),
      r.get id = some d → d.graph_nodes = [] →
      "No graph nodes defined" ∈ (r.validate_completeness id).2) := by
  refine ⟨?_, ?_, ?_⟩
  · intro d h
    unfold constructActionDescriptor
    rw [h]
  · intro r id d h hempty
    simp only [ActionRegistry.validate_completeness, h]
    constructor
    · simp [errIf, hempty, List.isEmpty_iff]
    · simp [mem_errIf, hempty]
  · intro r id d h hempty
    simp only [ActionRegistry.validate_completeness, h]
    simp [mem_errIf, hempty]

/-- Witness for the amended C8: the emptied copy, registered, is reported
incomplete with the no-UI-fields error. -/
theorem c8_emptiness_checked_only_by_completeness_witness :
    (c8registry.validate_completeness "adjust-setpoint").1 = false ∧
    "No UI fields defined" ∈ (c8registry.validate_completeness "adjust-setpoint").2 :=
  c8_emptiness_checked_only_by_completeness.2.1 c8registry "adjust-setpoint"
    c8descriptor rfl rfl

namespace ActionValidator

lemma optList_getD {α : Type} (xs : List α) : (optList xs).getD [] = xs := by
  cases xs <;> rfl

lemma enumErrors_no_missing {n : String} {v : PyValue} {o : Option (List String)}
    {names : List String} : VError.missingRequiredParams names ∉ enumErrors n v o := by
  cases o with
  | none => simp [enumErrors]
  | some allowed =>
    cases v with
    | str s => by_cases hs : s ∈ allowed <;> simp [enumErrors, hs]
    | intv k => simp [enumErrors]
    | floatv q => simp [enumErrors]
    | boolv b => simp [enumErrors]
    | pynone => simp [enumErrors]

lemma rangeErrors_no_missing {n : String} {v : PyValue} {rule : ParamRule}
    {names : List String} : VError.missingRequiredParams names ∉ rangeErrors n v rule := by
  unfold rangeErrors
  repeat' split
  all_goals simp

lemma validate_parameter_no_missing {n : String} {v : PyValue} {rule : ParamRule}
    {names : List String} :
    VError.missingRequiredParams names ∉ validate_parameter n v rule := by
  unfold validate_parameter
  repeat' split
  all_goals simp [enumErrors_no_missing, rangeErrors_no_missing]

lemma paramErrors_no_missing {r : ActionRule} {ps : List (String × PyValue)}
    {names : List String} :
    VError.missingRequiredParams names ∉ paramErrors r ps := by
  induction ps with
  | nil => simp [paramErrors]
  | cons pv rest ih =>
    intro hmem
    unfold paramErrors at hmem
    rcases List.mem_append.mp hmem with h | h
    · cases hl : r.validations.lookup pv.1 with
      | some rule =>
        rw [hl] at h
        exact validate_parameter_no_missing h
      | none =>
        rw [hl] at h
        exact List.not_mem_nil _ h
    · exact ih h

lemma mem_paramWarnings {r : ActionRule} {name : String} {v : PyValue}
    {ps : List (String × PyValue)} (hmem : (name, v) ∈ ps)
    (hrule : r.validations.lookup name = none) (hopt : name ∉ r.optional_params) :
    VWarning.unknownParam name ∈ paramWarnings r ps := by
  revert hmem
  induction ps with
  | nil =>
    intro hmem
    cases hmem
  | cons pv rest ih =>
    intro hmem
    rcases List.mem_cons.mp hmem with heq | htail
    · cases heq
      simp [paramWarnings, hrule, hopt]
    · unfold paramWarnings
      exact List.mem_append.mpr (Or.inr (ih htail))

end ActionValidator

/-- C9: the generic validator rejects an unknown action type with exactly
one fatal error; all missing required parameters are reported together in
one combined error (and no per-parameter error can be a missing-parameters
error); a supplied parameter whose rule type check fails yields only the
type-mismatch error with enum and range checks skipped; and a supplied
parameter without a rule contributes no error, yielding an
unknown-parameter warning when it is not declared optional. -/
theorem c9_generic_validator_error_policy :
    (∀ (t : String) (ps : List (String × PyValue)) (z : String),
      validation_rules.lookup t = none →
      validate_action t ps z =
        { is_valid := false, errors := some [.unsupportedActionType t],
          warnings := none }) ∧
    (∀ (t : String) (ps : List (String × PyValue)) (z : String) (r : ActionRule),
      validation_rules.lookup t = some r →
      missingParams r ps ≠ [] →
      errorsList (validate_action t ps z) =
        .missingRequiredParams (missingParams r ps) :: paramErrors r ps ∧
      ∀ names, VError.missingRequiredParams names ∉ paramErrors r ps) ∧
    (∀ (name : String) (v : PyValue) (rule : ParamRule) (pt : ParamType),
      rule.ptype = some pt → check_type v pt = false →
      validate_parameter name v rule = [.typeMismatch name pt (pyTypeName v)]) ∧
    (∀ (r : ActionRule) (pv : String × PyValue) (rest : List (String × PyValue)),
      r.validations.lookup pv.1 = none →
      paramErrors r (pv :: rest) = paramErrors r rest) ∧
    (∀ (t : String) (ps : List (String × PyValue)) (z : String) (r : ActionRule)
        (name : String) (v : PyValue),
      validation_rules.lookup t = some r →
      (name, v) ∈ ps →
      r.validations.lookup name = none → name ∉ r.optional_params →
      .unknownParam name ∈ warningsList (validate_action t ps z)) := by
  refine ⟨?_, ?_, ?_, ?_, ?_⟩
  · intro t ps z h
    simp only [validate_action, h]
  · intro t ps z r h hne
    constructor
    · simp only [validate_action, h, errorsList]
      rw [optList_getD]
      unfold missingErrors
      rw [if_neg hne]
      rfl
    · intro names
      exact paramErrors_no_missing
  · intro name v rule pt hpt hc
    simp [validate_parameter, hpt, hc]
  · intro r pv rest h
    simp [paramErrors, h]
  · intro t ps z r name v h hmem hrule hopt
    simp only [validate_action, h, warningsList]
    rw [optList_getD]
    exact mem_paramWarnings hmem hrule hopt

/-- Witness for C9: the unknown-action branch at a concrete unsupported
type, and the unknown-parameter warning for a parameter with no rule on
setTemperature. -/
theorem c9_generic_validator_error_policy_witness :
    validate_action "noSuchAction" [] "Z1" =
      { is_valid := false, errors := some [.unsupportedActionType "noSuchAction"],
        warnings := none } ∧
    VWarning.unknownParam "foo" ∈
      warningsList (validate_action "setTemperature" [("foo", .str "bar")] "Z1") :=
  ⟨c9_generic_validator_error_policy.1 "noSuchAction" [] "Z1" rfl,
   c9_generic_validator_error_policy.2.2.2.2 "setTemperature"
     [("foo", PyValue.str "bar")] "Z1" setTemperatureRule "foo" (PyValue.str "bar")
     rfl (List.mem_cons_self _ _) rfl (by decide)⟩

/-- C10: a Python boolean passes the number type check (bool is an int
subtype), compares as 1 or 0 in the range checks, and in particular
setTemperature with setpoint True reports only the below-minimum-55 range
violation, not a type-mismatch error. -/
theorem c10_boolean_counts_as_number :
    (∀ b : Bool, check_type (.boolv b) .number = true) ∧
    pyNum (.boolv true) = some 1 ∧
    pyNum (.boolv false) = some 0 ∧
    validate_action "setTemperature" [("setpoint", .boolv true)] "zone-1" =
      { is_valid := false,
        errors := some [.belowMin "setpoint" 55 (.boolv true)],
        warnings := none } := by
  refine ⟨fun b => by cases b <;> rfl, rfl, rfl, rfl⟩

end KBE

